import Mathlib

set_option maxHeartbeats 1000000

/-!
Shallow embedding of the compute-dispatch core of the candle wgpu backend
(`candle-core/src/wgpu_backend/wgpu_functions`): the deferred command queue,
the meta-buffer packer, the flush planner (`prepare` / `set_buffers`) and the
op encoders for conv2d and dtype conversion.

Machine integers (`u32`, `usize`, `u64`) are modelled as `Nat`; the values
involved in the claims never overflow.  Buffer references (`Arc<BufferReference>`)
are modelled as numeric ids, their lazily assigned storage as a map
`Nat → Option Nat` (id of the cached GPU buffer), and their byte sizes and
`Arc` strong counts as environment functions.  Panics are modelled as `none`
in an `Option` result; recoverable errors as an explicit error value.
-/

/-- `candle_wgpu_kernels::DType`: the dtypes supported by the wgpu backend. -/
inductive DType
  | u8
  | u32
  | f32
deriving DecidableEq

/-- `crate::DType`: the dtypes of the surrounding tensor crate. -/
inductive CrateDType
  | U8
  | U32
  | I64
  | BF16
  | F16
  | F32
  | F64
deriving DecidableEq

/-- `get_dtype` (wgpu_functions/mod.rs, lines 117-124): maps a crate dtype to a
wgpu dtype, failing (`UnsupportedDType` in the spec's taxonomy) for anything
outside {U8, U32, F32}. -/
def get_dtype : CrateDType → Except Unit DType
  | .U8 => .ok .u8
  | .U32 => .ok .u32
  | .F32 => .ok .f32
  | _ => .error ()

/-- `candle_wgpu_kernels::unary::Functions` (the variants used by the planner,
with a numeric catch-all for the rest of the enum). -/
inductive UnaryFn
  | UnaryFromBufferContiguous
  | UnaryInplaceContiguous
  | UnaryOther (n : Nat)
deriving DecidableEq

/-- `candle_wgpu_kernels::binary::Functions` (variants used by the planner). -/
inductive BinaryFn
  | BinaryBufferFromBufferContiguousBoth
  | BinaryBufferInplace1ContiguousBoth
  | BinaryBufferInplace2ContiguousBoth
  | BinaryOther (n : Nat)
deriving DecidableEq

/-- `candle_wgpu_kernels::copy::Functions` (variants used by the planner). -/
inductive CopyFn
  | Copy
  | CopyStrided
  | CopyOther (n : Nat)
deriving DecidableEq

/-- `candle_wgpu_kernels::conv2d::Functions` (variants used by `queue_conv2d`). -/
inductive Conv2dFn
  | Conv2d
  | Conv2dTranspose
deriving DecidableEq

/-- Convert pipelines (`Pipelines::ConvertU32ToU8` etc.). -/
inductive ConvertFn
  | ConvertU32ToU8
  | ConvertF32ToU8
  | ConvertOther (n : Nat)
deriving DecidableEq

/-- `candle_wgpu_kernels::Pipelines`: the kernel identifier part of a pipeline
key.  Only the families pattern-matched by the planner are distinguished; a
numeric catch-all stands for every other op family. -/
inductive Pipelines
  | Unary (dt : DType) (f : UnaryFn)
  | Binary (dt : DType) (f : BinaryFn)
  | Copy (dt : DType) (f : CopyFn)
  | Conv2d (dt : DType) (f : Conv2dFn)
  | Convert (dt : DType) (f : ConvertFn)
  | Other (n : Nat)
deriving DecidableEq

/-- `OpIsInplaceable` (device.rs, declared outside src/; field names as in the
spec's data model): the per-dispatch in-place hints. -/
structure OpIsInplaceable where
  input1_inplaceable : Bool
  input2_inplaceable : Bool
deriving DecidableEq

/-- `PipelineType`: (kernel identifier, const-array id, inplaceability hints).
The spec's data model names this triple; field 0/1/2 of the Rust tuple struct
become `kernel` / `const_id` / `inplaceable`. -/
structure PipelineType where
  kernel : Pipelines
  const_id : Nat
  inplaceable : OpIsInplaceable
deriving DecidableEq

/-- `BindGroupReferenceBase` over buffer-reference ids: arity 0..3 of inputs
plus a dest (`v0`), with the 16-byte-minimum layout flag on arity 1 and 2. -/
inductive BindGroupReferenceBase
  | Bindgroup0 (v0 : Nat)
  | Bindgroup1 (v0 v1 : Nat) (is16 : Bool)
  | Bindgroup2 (v0 v1 v2 : Nat) (is16 : Bool)
  | Bindgroup3 (v0 v1 v2 v3 : Nat)
deriving DecidableEq

/-- `DispatchedBindgroup`: the bind-group slot of a queued dispatch.  A cached
bind group is represented by the reference tuple it was created from. -/
inductive DispatchedBindgroup
  | BindgroupReference (bg : BindGroupReferenceBase)
  | CachedBindgroup (bg : BindGroupReferenceBase)
  | None
deriving DecidableEq

/-- `MlQueueDispatch`: one deferred dispatch record.  `pipeline_cached` is a
`Bool` standing for whether the `pipeline_cached : Option<ComputePipeline>`
slot has been filled. -/
structure MlQueueDispatch where
  x : Nat
  y : Nat
  z : Nat
  pipeline : PipelineType
  pipeline_cached : Bool
  bindgroup : DispatchedBindgroup
  meta : Nat
  workload_size : Nat
deriving DecidableEq

/-- `QueueBuffer` (device.rs, declared outside src/; fields as used by the
functions under src/): the deferred command queue plus the meta array under
construction.  `allocated` and `next_buffer_id` model the effect of
`cache.create_buffer_reference` calls made by op encoders: the list of
(buffer-reference id, byte size) pairs created so far. -/
structure QueueBuffer where
  command_queue : List MlQueueDispatch
  meta : List Nat
  current_meta : Nat
  id_to_const_array : List (List Nat)
  allocated : List (Nat × Nat)
  next_buffer_id : Nat
deriving DecidableEq

/-- `MAX_DISPATCH_SIZE` (mod.rs, line 63). -/
def MAX_DISPATCH_SIZE : Nat := 65535

/-- `WORKGROUP_SIZE` (mod.rs, line 115). -/
def WORKGROUP_SIZE : Nat := 64

/-- `next_divisible_by_n` (mod.rs, lines 180-190), on `Nat` (the call site
passes nonnegative `i32` values).  The Rust function panics on `n = 0`;
theorems about it carry `0 < n`. -/
def next_divisible_by_n (value n : Nat) : Nat :=
  if value % n = 0 then value else value + (n - value % n)

/-- `get_meta` (mod.rs, lines 192-205): advances `current_meta` to the next
multiple of `align_words = min_storage_buffer_offset_alignment / 4` and
zero-pads the meta array up to that offset. -/
def get_meta (align_words : Nat) (qb : QueueBuffer) : QueueBuffer :=
  let meta_array_length := qb.meta.length
  let meta_offset := next_divisible_by_n meta_array_length align_words
  { qb with
    current_meta := meta_offset
    meta := qb.meta ++ List.replicate (meta_offset - meta_array_length) 0 }

/-- The `MlQueueDispatch` record built by `enqueue_workgroups_extra`
(mod.rs, lines 165-176): fresh dispatch, pipeline not yet cached, bind group
still a reference. -/
def pushed_dispatch (x y z : Nat) (pipeline : PipelineType)
    (bind_group : BindGroupReferenceBase) (meta workload_size : Nat) : MlQueueDispatch :=
  { x := x, y := y, z := z, pipeline := pipeline, pipeline_cached := false,
    bindgroup := .BindgroupReference bind_group, meta := meta,
    workload_size := workload_size }

/-- `enqueue_workgroups_extra` (mod.rs, lines 152-178): panics (`none`) when
any extent exceeds `MAX_DISPATCH_SIZE`, otherwise pushes a dispatch recording
the queue's `current_meta`. -/
def enqueue_workgroups_extra (pipeline : PipelineType) (bind_group : BindGroupReferenceBase)
    (x y z workload_size : Nat) (qb : QueueBuffer) : Option QueueBuffer :=
  if MAX_DISPATCH_SIZE < y ∨ MAX_DISPATCH_SIZE < z ∨ MAX_DISPATCH_SIZE < x then
    none
  else
    some { qb with
      command_queue := qb.command_queue ++
        [pushed_dispatch x y z pipeline bind_group qb.current_meta workload_size] }

/-- `enqueue_extra` (mod.rs, lines 899-918): 1-D tiling by `WORKGROUP_SIZE`. -/
def enqueue_extra (pipeline : PipelineType) (bind_group : BindGroupReferenceBase)
    (length workload_size : Nat) (qb : QueueBuffer) : Option QueueBuffer :=
  enqueue_workgroups_extra pipeline bind_group
    ((length + WORKGROUP_SIZE - 1) / WORKGROUP_SIZE) 1 1 workload_size qb

/-- `enqueue_big_extra` (mod.rs, lines 936-959): splits across y when the
total workgroup count exceeds 65535. -/
def enqueue_big_extra (pipeline : PipelineType) (bind_group : BindGroupReferenceBase)
    (length : Nat) (qb : QueueBuffer) : Option QueueBuffer :=
  let id := (length + WORKGROUP_SIZE - 1) / WORKGROUP_SIZE
  enqueue_workgroups_extra pipeline bind_group (min id 65535) ((id + 65534) / 65535) 1 length qb

/-- An empty queue buffer, used as the start state of concrete runs. -/
def emptyQB : QueueBuffer :=
  { command_queue := [], meta := [], current_meta := 0, id_to_const_array := [],
    allocated := [], next_buffer_id := 0 }

/-- A sample pipeline key for concrete runs. -/
def samplePipeline : PipelineType :=
  { kernel := .Other 0, const_id := 0,
    inplaceable := { input1_inplaceable := false, input2_inplaceable := false } }

/-- A sample bind-group reference for concrete runs. -/
def sampleBindGroup : BindGroupReferenceBase := .Bindgroup0 0

/-- `queue_convert_u32_to_u8` (convert/mod.rs, lines 77-100): reserves an
aligned meta region, writes exactly the two words `{start_offset, size}`, and
enqueues with length `ceil(size, 4)`.  The source file calls `enqueue` without
a workload argument (an older signature); the workload recorded here is 0 and
is irrelevant to every claim. -/
def queue_convert_u32_to_u8 (align_words start_offset size buffer_dest buffer_input : Nat)
    (qb : QueueBuffer) : Option QueueBuffer :=
  let m1 := get_meta align_words qb
  let m2 := { m1 with meta := m1.meta ++ [start_offset, size] }
  let pipeline : PipelineType :=
    { kernel := .Convert .u32 .ConvertU32ToU8, const_id := 0,
      inplaceable := { input1_inplaceable := false, input2_inplaceable := false } }
  enqueue_extra pipeline (.Bindgroup1 buffer_dest buffer_input false) ((size + 3) / 4) 0 m2

/-- `crate::Layout`.  Modelled from the spec: the Layout type lives outside
src/; per the spec it provides a shape (multi-dim extents), per-dim strides,
and a start offset in elements. -/
structure Layout where
  shape : List Nat
  stride : List Nat
  start_offset : Nat
deriving DecidableEq

/-- The row-major strides of a contiguous layout: each dimension's stride is
the element count of the dimensions after it. -/
def contiguous_stride : List Nat → List Nat
  | [] => []
  | _ :: t => t.prod :: contiguous_stride t

/-- `Layout::contiguous(shape)`: contiguous strides, start offset 0. -/
def Layout.contiguous (shape : List Nat) : Layout :=
  { shape := shape, stride := contiguous_stride shape, start_offset := 0 }

/-- `ParamsConv2D` (crate::conv, outside src/).  `out_w` / `out_h` hold the
values of the `out_w()` / `out_h()` methods, whose formula lives outside the
three source files; no claim depends on it. -/
structure ParamsConv2D where
  b_size : Nat
  c_in : Nat
  c_out : Nat
  i_h : Nat
  i_w : Nat
  k_h : Nat
  k_w : Nat
  padding : Nat
  stride : Nat
  dilation : Nat
  out_w : Nat
  out_h : Nat
deriving DecidableEq

/-- Error values surfaced by the op encoders. -/
inductive QErr
  | UnsupportedDType
deriving DecidableEq

/-- Result of an op-encoder call.  `err` carries the queue state at the moment
the error propagates (the Rust state lives behind a mutex and keeps every
mutation made before the `?`); `panic` models an abort. -/
inductive QResult
  | ok (s : QueueBuffer)
  | err (e : QErr) (s : QueueBuffer)
  | panic
deriving DecidableEq

/-- The error and state carried by an `err` result. -/
def QResult.as_err : QResult → Option (QErr × QueueBuffer)
  | .err e s => some (e, s)
  | _ => none

/-- `cache.create_buffer_reference(size, false)` as seen from the queue:
returns a fresh buffer-reference id and records its byte size. -/
def create_buffer_reference (size : Nat) (qb : QueueBuffer) : Nat × QueueBuffer :=
  (qb.next_buffer_id,
   { qb with allocated := qb.allocated ++ [(qb.next_buffer_id, size)],
             next_buffer_id := qb.next_buffer_id + 1 })

/-- `MetaArray::get_pipeline_const` (device.rs, outside src/).  Modelled from
the spec: resolves the pipeline key together with a const-array id from the
queue's dedup table (`const_table: dedup map for ConstArray`), inserting the
const vector when it is new.  Inplaceability hints default to false. -/
def get_pipeline_const (kernel : Pipelines) (const_vec : List Nat) (qb : QueueBuffer) :
    PipelineType × QueueBuffer :=
  match qb.id_to_const_array.findIdx? (· = const_vec) with
  | some i =>
    ({ kernel := kernel, const_id := i,
       inplaceable := { input1_inplaceable := false, input2_inplaceable := false } }, qb)
  | none =>
    ({ kernel := kernel, const_id := qb.id_to_const_array.length,
       inplaceable := { input1_inplaceable := false, input2_inplaceable := false } },
     { qb with id_to_const_array := qb.id_to_const_array ++ [const_vec] })

/-- `queue_copy_strided` (copy.rs, not under src/).  Modelled from the spec:
an element-wise copy encoder that validates the dtype at entry, reserves an
aligned meta region, packs the canonical layout triple plus the dest offset,
and emits one strided-copy dispatch via the big-tiling helper. -/
def queue_copy_strided (align_words : Nat) (dtype : CrateDType)
    (buffer_dest buffer_input : Nat) (input_layout : Layout) (dest_offset : Nat)
    (qb : QueueBuffer) : QResult :=
  match get_dtype dtype with
  | .error _ => .err .UnsupportedDType qb
  | .ok dt =>
    let m1 := get_meta align_words qb
    let m2 := { m1 with
      meta := m1.meta ++ [input_layout.shape.length] ++ input_layout.shape ++
        input_layout.stride ++ [input_layout.start_offset, dest_offset] }
    let pipeline : PipelineType :=
      { kernel := .Copy dt .CopyStrided, const_id := 0,
        inplaceable := { input1_inplaceable := false, input2_inplaceable := false } }
    match enqueue_big_extra pipeline (.Bindgroup1 buffer_dest buffer_input false)
        input_layout.shape.prod m2 with
    | none => .panic
    | some t => .ok t

/-- The pre-copy condition of `queue_conv2d` (conv2d.rs, line 22): innermost
input stride not 1, more than 32 output channels, input at least 64×64. -/
def conv2d_precopy_cond (params : ParamsConv2D) (input_layout : Layout) : Prop :=
  input_layout.stride.getD 3 0 ≠ 1 ∧ 32 < params.c_out ∧ 64 ≤ params.i_h ∧ 64 ≤ params.i_w

instance (params : ParamsConv2D) (input_layout : Layout) :
    Decidable (conv2d_precopy_cond params input_layout) := by
  unfold conv2d_precopy_cond; infer_instance

/-- The 16 meta words written by `queue_conv2d` (conv2d.rs, lines 47-63), in
source order. -/
def conv2d_meta_words (params : ParamsConv2D) (input_layout kernel_layout : Layout) : List Nat :=
  [input_layout.start_offset,
   kernel_layout.stride.getD 2 0,
   kernel_layout.stride.getD 1 0,
   kernel_layout.stride.getD 0 0,
   kernel_layout.start_offset,
   params.i_w,
   params.i_h,
   params.out_w * params.out_h * params.c_out,
   params.out_w * params.out_h,
   params.out_w,
   params.out_h,
   input_layout.stride.getD 0 0,
   input_layout.stride.getD 1 0,
   input_layout.stride.getD 2 0,
   params.padding,
   params.stride]

/-- The const vector of `queue_conv2d` (conv2d.rs, lines 38-45). -/
def conv2d_const_vec (params : ParamsConv2D) (input_layout kernel_layout : Layout) : List Nat :=
  [kernel_layout.stride.getD 3 0,
   input_layout.stride.getD 3 0,
   params.dilation,
   params.k_w,
   params.k_h,
   params.b_size,
   params.c_in]

/-- The tail of `queue_conv2d` after the pre-copy decision (conv2d.rs, lines
33-82): meta writes, dtype check (note: after the meta writes), pipeline and
const resolution, and the conv dispatch with 16×16×c_out tiling. -/
def queue_conv2d_core (align_words : Nat) (dtype : CrateDType)
    (buffer_dest input_buffer buffer_input2 : Nat) (params : ParamsConv2D)
    (input_layout kernel_layout : Layout) (qb : QueueBuffer) : QResult :=
  let m1 := get_meta align_words qb
  let m2 := { m1 with meta := m1.meta ++ conv2d_meta_words params input_layout kernel_layout }
  match get_dtype dtype with
  | .error _ => .err .UnsupportedDType m2
  | .ok dt =>
    let pr := get_pipeline_const (.Conv2d dt .Conv2d)
      (conv2d_const_vec params input_layout kernel_layout) m2
    match enqueue_workgroups_extra pr.1 (.Bindgroup2 buffer_dest input_buffer buffer_input2 false)
        ((params.out_w + 15) / 16) ((params.out_h + 15) / 16) params.c_out
        (params.out_w * params.out_h * params.c_out * params.b_size * kernel_layout.shape.prod)
        pr.2 with
    | none => .panic
    | some t => .ok t

/-- `queue_conv2d` (conv2d.rs, lines 6-83): when the pre-copy condition holds,
allocates a transient contiguous buffer of `elem_count * 4` bytes, enqueues a
strided copy into it, and runs the conv on the contiguous layout; otherwise
uses the input buffer and its original layout directly. -/
def queue_conv2d (align_words : Nat) (dtype : CrateDType)
    (buffer_dest buffer_input1 buffer_input2 : Nat) (params : ParamsConv2D)
    (input_layout kernel_layout : Layout) (qb : QueueBuffer) : QResult :=
  if conv2d_precopy_cond params input_layout then
    let pr := create_buffer_reference (input_layout.shape.prod * 4) qb
    match queue_copy_strided align_words dtype pr.1 buffer_input1 input_layout 0 pr.2 with
    | .ok qb2 =>
      queue_conv2d_core align_words dtype buffer_dest pr.1 buffer_input2 params
        (Layout.contiguous input_layout.shape) kernel_layout qb2
    | .err e s => .err e s
    | .panic => .panic
  else
    queue_conv2d_core align_words dtype buffer_dest buffer_input1 buffer_input2 params
      input_layout kernel_layout qb

/-- Storage assignment: buffer-reference id ↦ id of its backing cached GPU
buffer, `none` while unbacked (`BufferReference.storage`). -/
def Store : Type := Nat → Option Nat

/-- Point update of a storage assignment. -/
def store_update (st : Store) (k : Nat) (v : Option Nat) : Store :=
  fun x => if x = k then v else st x

/-- The buffer-reference ids of a bind-group reference, dest first, in the
order the planner visits them. -/
def BindGroupReferenceBase.buffers : BindGroupReferenceBase → List Nat
  | .Bindgroup0 v0 => [v0]
  | .Bindgroup1 v0 v1 _ => [v0, v1]
  | .Bindgroup2 v0 v1 v2 _ => [v0, v1, v2]
  | .Bindgroup3 v0 v1 v2 v3 => [v0, v1, v2, v3]

/-- The binding step of `cache.get_bind_group` (cache.rs, outside src/).
Modelled from the spec: the cache first binds any unbacked referenced buffer
to a storage buffer; fresh storage ids are drawn from `next_sid`. -/
def bind_buffers (st : Store) (next_sid : Nat) : List Nat → Store × Nat
  | [] => (st, next_sid)
  | b :: rest =>
    match st b with
    | some _ => bind_buffers st next_sid rest
    | none => bind_buffers (store_update st b (some next_sid)) (next_sid + 1) rest

/-- Pipeline and bind-group materialization for a dispatch that is not
rewritten to a storage-transferring no-op (mod.rs, lines 644-712, non-copy
path): fills `pipeline_cached`, binds unbacked buffers, and caches the bind
group.  A dispatch whose bind-group slot is not a reference hits the
`panic!("not expected")` arm (`none`).  The returned flag records that the
cache-eviction check (`cache.remove_unused`) ran on this path. -/
def materialize (st : Store) (next_sid : Nat) (d : MlQueueDispatch) :
    Option (MlQueueDispatch × Store × Nat × Bool) :=
  match d.bindgroup with
  | .BindgroupReference bg =>
    some ({ d with pipeline_cached := true, bindgroup := .CachedBindgroup bg },
      (bind_buffers st next_sid bg.buffers).1, (bind_buffers st next_sid bg.buffers).2, true)
  | _ => none

/-- The per-dispatch body of `set_buffers` (mod.rs, lines 513-712): in-place
rewriting followed by materialization.  `strong` gives `Arc::strong_count` of
each buffer reference, `size_of` its byte size. -/
def process_dispatch (strong size_of : Nat → Nat) (st : Store) (next_sid : Nat)
    (d : MlQueueDispatch) : Option (MlQueueDispatch × Store × Nat × Bool) :=
  match d.pipeline.kernel, d.bindgroup with
  | .Unary dt .UnaryFromBufferContiguous, .BindgroupReference (.Bindgroup1 vdest v1 _) =>
    if d.pipeline.inplaceable.input1_inplaceable = true ∧ strong v1 = 1 ∧
        size_of vdest ≤ size_of v1 ∧ st vdest = none then
      let d1 := { d with
        pipeline := { d.pipeline with kernel := .Unary dt .UnaryInplaceContiguous },
        pipeline_cached := true,
        bindgroup := .CachedBindgroup (.Bindgroup0 v1) }
      let bound := bind_buffers st next_sid (BindGroupReferenceBase.Bindgroup0 v1).buffers
      some (d1, store_update (store_update bound.1 vdest (bound.1 v1)) v1 none, bound.2, true)
    else materialize st next_sid d
  | .Binary dt .BinaryBufferFromBufferContiguousBoth,
      .BindgroupReference (.Bindgroup2 vdest v1 v2 _) =>
    if d.pipeline.inplaceable.input1_inplaceable = true ∧ strong v1 = 1 ∧
        size_of vdest ≤ size_of v1 ∧ st vdest = none then
      let d1 := { d with
        pipeline := { d.pipeline with kernel := .Binary dt .BinaryBufferInplace1ContiguousBoth },
        pipeline_cached := true,
        bindgroup := .CachedBindgroup (.Bindgroup1 v1 v2 false) }
      let bound := bind_buffers st next_sid (BindGroupReferenceBase.Bindgroup1 v1 v2 false).buffers
      some (d1, store_update (store_update bound.1 vdest (bound.1 v1)) v1 none, bound.2, true)
    else if d.pipeline.inplaceable.input1_inplaceable = false ∧
        d.pipeline.inplaceable.input2_inplaceable = true ∧ strong v2 = 1 ∧
        size_of vdest ≤ size_of v2 ∧ st vdest = none then
      let d1 := { d with
        pipeline := { d.pipeline with kernel := .Binary dt .BinaryBufferInplace2ContiguousBoth },
        pipeline_cached := true,
        bindgroup := .CachedBindgroup (.Bindgroup1 v2 v1 false) }
      let bound := bind_buffers st next_sid (BindGroupReferenceBase.Bindgroup1 v2 v1 false).buffers
      some (d1, store_update (store_update bound.1 vdest (bound.1 v2)) v2 none, bound.2, true)
    else materialize st next_sid d
  | .Copy _ .Copy, .BindgroupReference (.Bindgroup1 vdest v1 _) =>
    if d.pipeline.inplaceable.input1_inplaceable = true ∧ strong v1 = 1 ∧
        size_of vdest ≤ size_of v1 ∧ st vdest = none then
      some ({ d with bindgroup := .None },
        store_update (store_update st vdest (st v1)) v1 none, next_sid, false)
    else materialize st next_sid d
  | _, _ => materialize st next_sid d

/-- The batching loop of `set_buffers` (mod.rs, lines 484-734).  Arguments
after the queue suffix: storage assignment, fresh-storage counter,
`total_workload`, `last_meta`, and the number of dispatches already taken in
this batch (`k = index - start_index` before the current iteration).
`limit_at k` is the outcome of `cache.remove_unused()` (cache.rs, outside
src/) at iteration `k`, an oracle the theorems quantify over.  Returns the
batch (with its dispatches rewritten/materialized), the remaining suffix, the
final storage assignment and counter, and the final `last_meta`. -/
def sb_loop (max_workload meta_buffer_size current_meta : Nat)
    (strong size_of : Nat → Nat) (limit_at : Nat → Bool) :
    List MlQueueDispatch → Store → Nat → Nat → Nat → Nat →
    Option (List MlQueueDispatch × List MlQueueDispatch × Store × Nat × Nat)
  | [], st, next_sid, _total, last_meta, _k => some ([], [], st, next_sid, last_meta)
  | d :: rest, st, next_sid, total, last_meta, k =>
    if max_workload < total + d.workload_size ∧ 1 ≤ k then
      some ([], d :: rest, st, next_sid, last_meta)
    else
      match process_dispatch strong size_of st next_sid d with
      | none => none
      | some (d1, st1, sid1, checked) =>
        if meta_buffer_size < (d1.meta - current_meta) * 4 + 256 * 3 ∨
            (checked = true ∧ limit_at k = true) ∨
            max_workload < total + d.workload_size then
          some ([d1], rest, st1, sid1, d1.meta)
        else
          match sb_loop max_workload meta_buffer_size current_meta strong size_of limit_at
              rest st1 sid1 (total + d.workload_size) d1.meta (k + 1) with
          | none => none
          | some (tk, rm, st2, sid2, lm) => some (d1 :: tk, rm, st2, sid2, lm)

/-- The cache fields read and written by `prepare` (cache.rs, outside src/;
field names from the call sites in mod.rs). -/
structure Cache where
  max_memory_allowed : Nat
  buffer_memory : Nat
  buffer_memory_free : Nat
  mapping_sig : List PipelineType
deriving DecidableEq

/-- The buffer ids a dispatch contributes to `prepare`'s simulation: `None`
bind groups are skipped (`continue`), an already-cached bind group hits the
`todo!()` arm (modelled as `none`). -/
def dispatch_buffers : DispatchedBindgroup → Option (List Nat)
  | .BindgroupReference bg => some bg.buffers
  | .None => some []
  | .CachedBindgroup _ => none

/-- Pass 1 of `prepare` (mod.rs, lines 382-417): for every buffer reference,
the index of the last dispatch that uses it. -/
def last_used_map : List (Nat × MlQueueDispatch) → (Nat → Option Nat) →
    Option (Nat → Option Nat)
  | [], m => some m
  | (i, d) :: rest, m =>
    match dispatch_buffers d.bindgroup with
    | none => none
    | some bs =>
      last_used_map rest (bs.foldl (fun acc b => fun x => if x = b then some i else acc x) m)

/-- The `check_buffer` closure of pass 2 (mod.rs, lines 420-441), acting on an
accumulator (seen-set, `total_used_storage`, `most_needed_storage`). -/
def sim_buffer (size_of : Nat → Nat) (storage_is_none is_ref : Nat → Bool)
    (lm : Nat → Option Nat) (i : Nat) (acc : (Nat → Bool) × Nat × Nat) (b : Nat) :
    (Nat → Bool) × Nat × Nat :=
  let used := acc.1
  let total := acc.2.1
  let most := acc.2.2
  let used1 : Nat → Bool := if used b = true then used else fun x => if x = b then true else used x
  let total1 := if used b = true then total
    else if storage_is_none b = true then total + size_of b else total
  if (lm b).getD 0 ≤ i ∧ is_ref b = false then
    (used1, total1 - size_of b, if most < total1 then total1 else most)
  else
    (used1, total1, most)

/-- Pass 2 of `prepare` (mod.rs, lines 418-470): simulate allocation in
dispatch order. -/
def sim_queue (size_of : Nat → Nat) (storage_is_none is_ref : Nat → Bool)
    (lm : Nat → Option Nat) :
    List (Nat × MlQueueDispatch) → ((Nat → Bool) × Nat × Nat) →
    Option ((Nat → Bool) × Nat × Nat)
  | [], acc => some acc
  | (i, d) :: rest, acc =>
    match dispatch_buffers d.bindgroup with
    | none => none
    | some bs =>
      sim_queue size_of storage_is_none is_ref lm rest
        (bs.foldl (sim_buffer size_of storage_is_none is_ref lm i) acc)

/-- The `most_needed_storage` value computed by `prepare`'s two-pass
allocation simulation, starting from the memory already in use. -/
def most_needed_of (size_of : Nat → Nat) (storage_is_none is_ref : Nat → Bool)
    (qb : QueueBuffer) (c : Cache) : Option Nat :=
  let total0 := c.buffer_memory - c.buffer_memory_free
  match last_used_map qb.command_queue.enum (fun _ => none) with
  | none => none
  | some lm =>
    match sim_queue size_of storage_is_none is_ref lm qb.command_queue.enum
        (fun _ => false, total0, total0) with
    | none => none
    | some acc => some acc.2.2

/-- The `max_memory_allowed` update at the end of `prepare` (mod.rs, lines
471-479): expand `most_needed_storage` by 25%, then either raise the maximum
to it or decay as `7*max/8 + expanded/8` (two floor divisions). -/
def prepare_update_max (max_allowed most_needed : Nat) : Nat :=
  let expanded := most_needed * 5 / 4
  if max_allowed < expanded then expanded
  else 7 * max_allowed / 8 + expanded / 8

/-- `prepare` (mod.rs, lines 362-481): records the pipeline signature (the
list of pipeline keys stands for their hash), runs the allocation simulation,
and updates `max_memory_allowed`.  The queue buffer is passed through. -/
def prepare (size_of : Nat → Nat) (storage_is_none is_ref : Nat → Bool)
    (qb : QueueBuffer) (c : Cache) : Option (QueueBuffer × Cache) :=
  match most_needed_of size_of storage_is_none is_ref qb c with
  | none => none
  | some most =>
    some (qb,
      { c with
        mapping_sig := qb.command_queue.map (fun d => d.pipeline),
        max_memory_allowed := prepare_update_max c.max_memory_allowed most })

/-- A queue state with a non-trivial meta array, for concrete runs. -/
def c2SampleState : QueueBuffer := { emptyQB with meta := [1, 2, 3] }

/-- The dispatch recorded by one 1×1×1 enqueue at meta offset 64. -/
def c2Dispatch : MlQueueDispatch :=
  { x := 1, y := 1, z := 1, pipeline := samplePipeline, pipeline_cached := false,
    bindgroup := .BindgroupReference sampleBindGroup, meta := 64, workload_size := 0 }

/-- The state after `get_meta` (alignment 256 bytes = 64 words) and one
enqueue on `c2SampleState`. -/
def c2Target : QueueBuffer :=
  { command_queue := [c2Dispatch],
    meta := [1, 2, 3] ++ List.replicate 61 0, current_meta := 64,
    id_to_const_array := [], allocated := [], next_buffer_id := 0 }

/-- The dispatch recorded by one 1×1×1 enqueue at meta offset 0. -/
def c8Dispatch : MlQueueDispatch :=
  { x := 1, y := 1, z := 1, pipeline := samplePipeline, pipeline_cached := false,
    bindgroup := .BindgroupReference sampleBindGroup, meta := 0, workload_size := 0 }

/-- The state after one in-limit enqueue on the empty queue. -/
def c8Target : QueueBuffer :=
  { emptyQB with command_queue := [c8Dispatch] }

/-- The dispatch recorded by a U32→U8 convert of 8 elements. -/
def c6Dispatch : MlQueueDispatch :=
  { x := 1, y := 1, z := 1,
    pipeline :=
      { kernel := .Convert .u32 .ConvertU32ToU8, const_id := 0,
        inplaceable := { input1_inplaceable := false, input2_inplaceable := false } },
    pipeline_cached := false, bindgroup := .BindgroupReference (.Bindgroup1 2 3 false),
    meta := 0, workload_size := 0 }

/-- The state after a U32→U8 convert of 8 elements at offset 5 on the empty
queue. -/
def c6Target : QueueBuffer :=
  { emptyQB with meta := [5, 8], command_queue := [c6Dispatch] }

/-- A dispatch reading buffers 0 (dest) and 1, for concrete `prepare` runs. -/
def c4Dispatch : MlQueueDispatch :=
  { x := 1, y := 1, z := 1, pipeline := samplePipeline, pipeline_cached := false,
    bindgroup := .BindgroupReference (.Bindgroup1 0 1 false), meta := 0, workload_size := 0 }

/-- A one-dispatch queue whose dispatch reads buffers 0 (dest) and 1, for
concrete `prepare` runs. -/
def c4QB : QueueBuffer :=
  { emptyQB with command_queue := [c4Dispatch] }

/-- A cache with 60 bytes in use, for concrete `prepare` runs. -/
def c4Cache : Cache :=
  { max_memory_allowed := 50, buffer_memory := 100, buffer_memory_free := 40,
    mapping_sig := [] }

/-- The cache `prepare` produces from `c4QB` / `c4Cache` with 8-byte unbacked
unreferenced buffers. -/
def c4CacheOut : Cache :=
  { max_memory_allowed := 85, buffer_memory := 100, buffer_memory_free := 40,
    mapping_sig := [samplePipeline] }

/-- Conv2d parameters for a [1,3,64,64] input and [16,3,3,3] kernel with
padding 1, stride 1, dilation 1 (so a 64×64 output). -/
def c7Params : ParamsConv2D :=
  { b_size := 1, c_in := 3, c_out := 16, i_h := 64, i_w := 64, k_h := 3, k_w := 3,
    padding := 1, stride := 1, dilation := 1, out_w := 64, out_h := 64 }

/-- A contiguous [1,3,64,64] input layout. -/
def c7InputLayout : Layout := Layout.contiguous [1, 3, 64, 64]

/-- A contiguous [16,3,3,3] kernel layout. -/
def c7KernelLayout : Layout := Layout.contiguous [16, 3, 3, 3]

/-- The state produced by a conv2d (no pre-copy) of `c7Params` with dtype F32
on the empty queue. -/
def c5Target : QueueBuffer :=
  { command_queue :=
      [pushed_dispatch 4 4 16
        { kernel := .Conv2d .f32 .Conv2d, const_id := 0,
          inplaceable := { input1_inplaceable := false, input2_inplaceable := false } }
        (.Bindgroup2 0 1 2 false) 0 28311552],
    meta := [0, 3, 9, 27, 0, 64, 64, 65536, 4096, 64, 64, 12288, 4096, 64, 1, 1],
    current_meta := 0,
    id_to_const_array := [[1, 1, 1, 3, 3, 1, 3]],
    allocated := [], next_buffer_id := 0 }

/-- A 30-unit-workload dispatch reading buffer 0, for concrete `set_buffers`
runs. -/
def c1Dispatch : MlQueueDispatch :=
  { x := 1, y := 1, z := 1, pipeline := samplePipeline, pipeline_cached := false,
    bindgroup := .BindgroupReference (.Bindgroup0 0), meta := 0, workload_size := 30 }

/-- `c1Dispatch` after materialization by the planner. -/
def c1Done : MlQueueDispatch :=
  { c1Dispatch with pipeline_cached := true, bindgroup := .CachedBindgroup (.Bindgroup0 0) }

/-- A strong-count environment where every reference has count 1. -/
def c3strong : Nat → Nat := fun _ => 1

/-- A size environment where every reference is 4 bytes. -/
def c3size : Nat → Nat := fun _ => 4

/-- A storage assignment where buffer 1 is backed by cached buffer 5 and
everything else is unbacked. -/
def c3store : Store := fun n => if n = 1 then some 5 else none

/-- A unary contiguous-from-buffer dispatch with dest 0 and input 1, with the
`input1_inplaceable` hint given by the argument. -/
def c3Dispatch (ip1 : Bool) : MlQueueDispatch :=
  { x := 1, y := 1, z := 1,
    pipeline :=
      { kernel := .Unary .f32 .UnaryFromBufferContiguous, const_id := 0,
        inplaceable := { input1_inplaceable := ip1, input2_inplaceable := false } },
    pipeline_cached := false,
    bindgroup := .BindgroupReference (.Bindgroup1 0 1 false), meta := 0, workload_size := 9 }

theorem next_divisible_by_n_mod (v n : Nat) (h : 0 < n) :
    next_divisible_by_n v n % n = 0 := by
  unfold next_divisible_by_n
  split
  · rename_i h1
    exact h1
  · rename_i h1
    have h2 : v % n < n := Nat.mod_lt _ h
    have hd := Nat.div_add_mod v n
    have h3 : v + (n - v % n) = n * (v / n) + n := by omega
    rw [h3, ← Nat.mul_succ]
    exact Nat.mul_mod_right n _

/-- Claim C2: every dispatch pushed after `get_meta` records a meta offset
that is a multiple of `align / 4` words, `get_meta` zero-fills the padding
words it appends, and the enqueued dispatch records exactly the advanced
`current_meta`. -/
theorem C2_meta_alignment (align : Nat) (p : PipelineType) (bg : BindGroupReferenceBase)
    (x y z w : Nat) (qb t : QueueBuffer)
    (halign : 0 < align / 4)
    (h : enqueue_workgroups_extra p bg x y z w (get_meta (align / 4) qb) = some t) :
    (get_meta (align / 4) qb).current_meta % (align / 4) = 0 ∧
    (get_meta (align / 4) qb).meta =
      qb.meta ++ List.replicate ((get_meta (align / 4) qb).current_meta - qb.meta.length) 0 ∧
    t.command_queue = (get_meta (align / 4) qb).command_queue ++
      [pushed_dispatch x y z p bg (get_meta (align / 4) qb).current_meta w] := by
  refine ⟨?_, ?_, ?_⟩
  · simp only [get_meta]
    exact next_divisible_by_n_mod _ _ halign
  · simp [get_meta]
  · unfold enqueue_workgroups_extra at h
    split at h
    · exact absurd h (by simp)
    · cases h
      rfl

theorem C2_meta_alignment_witness :
    (0 < 256 / 4 ∧
      enqueue_workgroups_extra samplePipeline sampleBindGroup 1 1 1 0
        (get_meta (256 / 4) c2SampleState) = some c2Target) ∧
    ((get_meta (256 / 4) c2SampleState).current_meta % (256 / 4) = 0 ∧
      (get_meta (256 / 4) c2SampleState).meta =
        c2SampleState.meta ++
          List.replicate ((get_meta (256 / 4) c2SampleState).current_meta -
            c2SampleState.meta.length) 0 ∧
      c2Target.command_queue = (get_meta (256 / 4) c2SampleState).command_queue ++
        [pushed_dispatch 1 1 1 samplePipeline sampleBindGroup
          (get_meta (256 / 4) c2SampleState).current_meta 0]) :=
  ⟨⟨by decide, by decide⟩,
   C2_meta_alignment 256 samplePipeline sampleBindGroup 1 1 1 0 c2SampleState c2Target
     (by decide) (by decide)⟩

/-- Claim C8: an enqueue whose x, y or z extent exceeds 65535 panics instead
of recording the dispatch, so a queue whose dispatches are all within the
limit stays that way across any successful enqueue. -/
theorem C8_dispatch_limit (p : PipelineType) (bg : BindGroupReferenceBase)
    (x y z w : Nat) (qb : QueueBuffer) :
    ((MAX_DISPATCH_SIZE < x ∨ MAX_DISPATCH_SIZE < y ∨ MAX_DISPATCH_SIZE < z) →
      enqueue_workgroups_extra p bg x y z w qb = none) ∧
    (∀ t, enqueue_workgroups_extra p bg x y z w qb = some t →
      (∀ d ∈ qb.command_queue,
        d.x ≤ MAX_DISPATCH_SIZE ∧ d.y ≤ MAX_DISPATCH_SIZE ∧ d.z ≤ MAX_DISPATCH_SIZE) →
      ∀ d ∈ t.command_queue,
        d.x ≤ MAX_DISPATCH_SIZE ∧ d.y ≤ MAX_DISPATCH_SIZE ∧ d.z ≤ MAX_DISPATCH_SIZE) := by
  constructor
  · intro hx
    unfold enqueue_workgroups_extra
    rw [if_pos (by tauto)]
  · intro t ht hall d hd
    unfold enqueue_workgroups_extra at ht
    split at ht
    · exact absurd ht (by simp)
    · rename_i hc
      cases ht
      push_neg at hc
      rcases List.mem_append.mp hd with h1 | h2
      · exact hall d h1
      · simp only [List.mem_singleton] at h2
        subst h2
        exact ⟨hc.2.2, hc.1, hc.2.1⟩

theorem C8_dispatch_limit_witness :
    ((MAX_DISPATCH_SIZE < 70000 ∨ MAX_DISPATCH_SIZE < 1 ∨ MAX_DISPATCH_SIZE < 1) ∧
      enqueue_workgroups_extra samplePipeline sampleBindGroup 70000 1 1 0 emptyQB = none) ∧
    (enqueue_workgroups_extra samplePipeline sampleBindGroup 1 1 1 0 emptyQB = some c8Target ∧
      ∀ d ∈ c8Target.command_queue,
        d.x ≤ MAX_DISPATCH_SIZE ∧ d.y ≤ MAX_DISPATCH_SIZE ∧ d.z ≤ MAX_DISPATCH_SIZE) :=
  ⟨⟨by decide,
    (C8_dispatch_limit samplePipeline sampleBindGroup 70000 1 1 0 emptyQB).1 (by decide)⟩,
   ⟨by decide,
    (C8_dispatch_limit samplePipeline sampleBindGroup 1 1 1 0 emptyQB).2 c8Target
      (by decide) (by decide)⟩⟩

/-- Claim C9 counterexample: an enqueue of length 0 computes 0 workgroups but
still pushes a Dispatch record onto the command queue (the claim says no
record is pushed: the queue would have stayed empty). -/
theorem C9_counterexample :
    (enqueue_extra samplePipeline sampleBindGroup 0 0 emptyQB).map
      (fun t => t.command_queue.map (fun d => (d.x, d.y, d.z))) = some [(0, 1, 1)] ∧
    ¬ (enqueue_extra samplePipeline sampleBindGroup 0 0 emptyQB).map
      (fun t => t.command_queue.length) = some 0 := by
  decide

/-- Claim C9 (amended): a zero-length enqueue computes 0 workgroups by
ceil-division, and pushes a dispatch record with x = 0 (extents (0,1,1); for
the big-tiling helper (0,0,1)) onto the queue; the record is not skipped. -/
theorem C9_zero_length (p : PipelineType) (bg : BindGroupReferenceBase) (w : Nat)
    (qb : QueueBuffer) :
    enqueue_extra p bg 0 w qb = some { qb with command_queue :=
      qb.command_queue ++ [pushed_dispatch 0 1 1 p bg qb.current_meta w] } ∧
    enqueue_big_extra p bg 0 qb = some { qb with command_queue :=
      qb.command_queue ++ [pushed_dispatch 0 0 1 p bg qb.current_meta 0] } := by
  constructor <;> rfl

/-- Claim C6 counterexample: converting U32→U8 over 1024 elements records a
dispatch with extents (4,1,1), not (256,1,1): the encoder passes ceil(n,4) as
the thread length and `enqueue` divides it again by `WORKGROUP_SIZE = 64`. -/
theorem C6_counterexample :
    (queue_convert_u32_to_u8 64 0 1024 0 1 emptyQB).map
      (fun t => t.command_queue.map (fun d => (d.x, d.y, d.z))) = some [(4, 1, 1)] ∧
    ((4 : Nat), (1 : Nat), (1 : Nat)) ≠ ((256 : Nat), 1, 1) := by
  decide

/-- Claim C6 (amended): `queue_convert_u32_to_u8` over n elements enqueues a
dispatch of ceil(ceil(n,4), 64) workgroups (so (4,1,1) for n = 1024), and the
meta region written for it contains exactly the two words
{start_offset, size}. -/
theorem C6_convert_dispatch (align_words start_offset n dest input : Nat)
    (qb t : QueueBuffer)
    (h : queue_convert_u32_to_u8 align_words start_offset n dest input qb = some t) :
    t.meta = (get_meta align_words qb).meta ++ [start_offset, n] ∧
    t.command_queue = qb.command_queue ++
      [pushed_dispatch (((n + 3) / 4 + WORKGROUP_SIZE - 1) / WORKGROUP_SIZE) 1 1
        { kernel := .Convert .u32 .ConvertU32ToU8, const_id := 0,
          inplaceable := { input1_inplaceable := false, input2_inplaceable := false } }
        (.Bindgroup1 dest input false) (get_meta align_words qb).current_meta 0] := by
  simp only [queue_convert_u32_to_u8, enqueue_extra, enqueue_workgroups_extra] at h
  split at h
  · exact absurd h (by simp)
  · cases h
    exact ⟨rfl, rfl⟩

theorem C6_convert_dispatch_witness :
    queue_convert_u32_to_u8 64 5 8 2 3 emptyQB = some c6Target ∧
    (c6Target.meta = (get_meta 64 emptyQB).meta ++ [5, 8] ∧
      c6Target.command_queue = emptyQB.command_queue ++
        [pushed_dispatch (((8 + 3) / 4 + WORKGROUP_SIZE - 1) / WORKGROUP_SIZE) 1 1
          { kernel := .Convert .u32 .ConvertU32ToU8, const_id := 0,
            inplaceable := { input1_inplaceable := false, input2_inplaceable := false } }
          (.Bindgroup1 2 3 false) (get_meta 64 emptyQB).current_meta 0]) :=
  ⟨by decide, C6_convert_dispatch 64 5 8 2 3 emptyQB c6Target (by decide)⟩

/-- Claim C4 counterexample.  With `max_memory_allowed = 800` and
`most_needed_storage = 0`, `prepare`'s update yields 700, which exceeds
1.25 × 0: the claimed bound `max ≤ 1.25 × most_needed` fails after a single
update.  Moreover, with max = 7 and most_needed = 6 the code's two floor
divisions give 6 while the claimed single division `(7·max + expanded) / 8`
gives 7. -/
theorem C4_counterexample :
    prepare_update_max 800 0 = 700 ∧ ¬ (4 * prepare_update_max 800 0 ≤ 5 * 0) ∧
    prepare_update_max 7 6 = 6 ∧ (7 * 7 + 6 * 5 / 4) / 8 = 7 ∧
    prepare_update_max 7 6 ≠ (7 * 7 + 6 * 5 / 4) / 8 := by
  decide

/-- Claim C4 (amended): after `prepare`, `max_memory_allowed` is at most
max(previous maximum, (5·most_needed)/4); the update raises it to exactly the
25%-expanded most_needed when that exceeds the current maximum, and otherwise
sets it to `7·max/8 + ((5·most_needed)/4)/8` using floor divisions; `prepare`
installs exactly this update for the most_needed value observed by its
allocation simulation. -/
theorem C4_budget_update (max_allowed m : Nat)
    (size_of : Nat → Nat) (storage_is_none is_ref : Nat → Bool)
    (qb : QueueBuffer) (c : Cache) :
    prepare_update_max max_allowed m ≤ max max_allowed (m * 5 / 4) ∧
    (max_allowed < m * 5 / 4 → prepare_update_max max_allowed m = m * 5 / 4) ∧
    (m * 5 / 4 ≤ max_allowed →
      prepare_update_max max_allowed m = 7 * max_allowed / 8 + m * 5 / 4 / 8) ∧
    (∀ qb1 c1 m0, prepare size_of storage_is_none is_ref qb c = some (qb1, c1) →
      most_needed_of size_of storage_is_none is_ref qb c = some m0 →
      c1.max_memory_allowed = prepare_update_max c.max_memory_allowed m0) := by
  refine ⟨?_, ?_, ?_, ?_⟩
  · simp only [prepare_update_max]
    split
    · exact le_max_right _ _
    · rename_i hle
      have ha : 7 * max_allowed / 8 * 8 ≤ 7 * max_allowed := Nat.div_mul_le_self _ _
      have hb : m * 5 / 4 / 8 * 8 ≤ m * 5 / 4 := Nat.div_mul_le_self _ _
      have h1 : 7 * max_allowed / 8 + m * 5 / 4 / 8 ≤ max_allowed := by omega
      exact le_trans h1 (le_max_left _ _)
  · intro h
    simp only [prepare_update_max]
    rw [if_pos h]
  · intro h
    simp only [prepare_update_max]
    rw [if_neg (by omega)]
  · intro qb1 c1 m0 hp hm
    unfold prepare at hp
    split at hp
    · exact absurd hp (by simp)
    · rename_i most heq
      rw [hm] at heq
      cases heq
      cases hp
      rfl

theorem C4_budget_update_witness :
    ((6 : Nat) * 5 / 4 ≤ 7 ∧ prepare_update_max 7 6 = 7 * 7 / 8 + 6 * 5 / 4 / 8) ∧
    (prepare (fun _ => 8) (fun _ => true) (fun _ => false) c4QB c4Cache =
        some (c4QB, c4CacheOut) ∧
      most_needed_of (fun _ => 8) (fun _ => true) (fun _ => false) c4QB c4Cache = some 68 ∧
      c4CacheOut.max_memory_allowed = prepare_update_max c4Cache.max_memory_allowed 68) :=
  ⟨⟨by decide,
    (C4_budget_update 7 6 (fun _ => 8) (fun _ => true) (fun _ => false) c4QB c4Cache).2.2.1
      (by decide)⟩,
   ⟨by decide, by decide,
    (C4_budget_update 7 6 (fun _ => 8) (fun _ => true) (fun _ => false) c4QB c4Cache).2.2.2
      c4QB c4CacheOut 68 (by decide) (by decide)⟩⟩

/-- Claim C10: `prepare` leaves the queue buffer (command queue entries, meta
array, current_meta, const table) unchanged; on the cache it only rewrites
`max_memory_allowed` and the buffer-mapping signature, keeping the memory
counters. -/
theorem C10_prepare_frame (size_of : Nat → Nat) (storage_is_none is_ref : Nat → Bool)
    (qb : QueueBuffer) (c : Cache) (qb1 : QueueBuffer) (c1 : Cache)
    (h : prepare size_of storage_is_none is_ref qb c = some (qb1, c1)) :
    qb1 = qb ∧ c1.buffer_memory = c.buffer_memory ∧
    c1.buffer_memory_free = c.buffer_memory_free ∧
    c1.mapping_sig = qb.command_queue.map (fun d => d.pipeline) := by
  unfold prepare at h
  split at h
  · exact absurd h (by simp)
  · cases h
    exact ⟨rfl, rfl, rfl, rfl⟩

theorem C10_prepare_frame_witness :
    prepare (fun _ => 8) (fun _ => true) (fun _ => false) c4QB c4Cache =
      some (c4QB, c4CacheOut) ∧
    (c4QB = c4QB ∧ c4CacheOut.buffer_memory = c4Cache.buffer_memory ∧
      c4CacheOut.buffer_memory_free = c4Cache.buffer_memory_free ∧
      c4CacheOut.mapping_sig = c4QB.command_queue.map (fun d => d.pipeline)) :=
  ⟨by decide,
   C10_prepare_frame (fun _ => 8) (fun _ => true) (fun _ => false) c4QB c4Cache c4QB c4CacheOut
     (by decide)⟩

theorem gpc_command_queue (k : Pipelines) (v : List Nat) (qb : QueueBuffer) :
    (get_pipeline_const k v qb).2.command_queue = qb.command_queue := by
  unfold get_pipeline_const
  split <;> rfl

theorem gpc_meta (k : Pipelines) (v : List Nat) (qb : QueueBuffer) :
    (get_pipeline_const k v qb).2.meta = qb.meta := by
  unfold get_pipeline_const
  split <;> rfl

theorem gpc_current_meta (k : Pipelines) (v : List Nat) (qb : QueueBuffer) :
    (get_pipeline_const k v qb).2.current_meta = qb.current_meta := by
  unfold get_pipeline_const
  split <;> rfl

theorem gpc_allocated (k : Pipelines) (v : List Nat) (qb : QueueBuffer) :
    (get_pipeline_const k v qb).2.allocated = qb.allocated := by
  unfold get_pipeline_const
  split <;> rfl

theorem gpc_next_buffer_id (k : Pipelines) (v : List Nat) (qb : QueueBuffer) :
    (get_pipeline_const k v qb).2.next_buffer_id = qb.next_buffer_id := by
  unfold get_pipeline_const
  split <;> rfl

theorem get_pipeline_const_kernel (k : Pipelines) (v : List Nat) (qb : QueueBuffer) :
    (get_pipeline_const k v qb).1.kernel = k := by
  unfold get_pipeline_const
  split <;> rfl

theorem queue_copy_strided_ok (align_words : Nat) (dtype : CrateDType) (dt : DType)
    (dest input : Nat) (il : Layout) (off : Nat) (qb t : QueueBuffer)
    (hdt : get_dtype dtype = .ok dt)
    (h : queue_copy_strided align_words dtype dest input il off qb = .ok t) :
    t.command_queue = qb.command_queue ++
      [pushed_dispatch (min ((il.shape.prod + WORKGROUP_SIZE - 1) / WORKGROUP_SIZE) 65535)
        ((((il.shape.prod + WORKGROUP_SIZE - 1) / WORKGROUP_SIZE) + 65534) / 65535) 1
        { kernel := .Copy dt .CopyStrided, const_id := 0,
          inplaceable := { input1_inplaceable := false, input2_inplaceable := false } }
        (.Bindgroup1 dest input false) (get_meta align_words qb).current_meta il.shape.prod] ∧
    t.allocated = qb.allocated ∧
    t.next_buffer_id = qb.next_buffer_id ∧
    t.id_to_const_array = qb.id_to_const_array := by
  simp only [queue_copy_strided, hdt, enqueue_big_extra, enqueue_workgroups_extra] at h
  split at h
  · exact absurd h (by simp)
  · rename_i t1 heq
    cases h
    split at heq
    · exact absurd heq (by simp)
    · cases heq
      exact ⟨rfl, rfl, rfl, rfl⟩

theorem queue_conv2d_core_ok (align_words : Nat) (dtype : CrateDType) (dt : DType)
    (dest input kernel : Nat) (params : ParamsConv2D) (il kl : Layout) (qb t : QueueBuffer)
    (hdt : get_dtype dtype = .ok dt)
    (h : queue_conv2d_core align_words dtype dest input kernel params il kl qb = .ok t) :
    t.command_queue = qb.command_queue ++
      [pushed_dispatch ((params.out_w + 15) / 16) ((params.out_h + 15) / 16) params.c_out
        (get_pipeline_const (.Conv2d dt .Conv2d) (conv2d_const_vec params il kl)
          { get_meta align_words qb with
            meta := (get_meta align_words qb).meta ++ conv2d_meta_words params il kl }).1
        (.Bindgroup2 dest input kernel false)
        (get_meta align_words qb).current_meta
        (params.out_w * params.out_h * params.c_out * params.b_size * kl.shape.prod)] ∧
    t.meta = (get_meta align_words qb).meta ++ conv2d_meta_words params il kl ∧
    t.allocated = qb.allocated ∧
    t.next_buffer_id = qb.next_buffer_id := by
  simp only [queue_conv2d_core, hdt, enqueue_workgroups_extra] at h
  split at h
  · exact absurd h (by simp)
  · rename_i t1 heq
    cases h
    split at heq
    · exact absurd heq (by simp)
    · cases heq
      refine ⟨?_, ?_, ?_, ?_⟩ <;>
        dsimp only <;>
        simp only [gpc_command_queue, gpc_meta, gpc_current_meta, gpc_allocated,
          gpc_next_buffer_id] <;>
        rfl

/-- Claim C7 counterexample: `queue_conv2d` with the unsupported dtype F64
does return the unsupported-dtype error and pushes no dispatch, but the meta
array has already been mutated (16 parameter words written) when the error
propagates: the failure is not at op-encoder entry before the meta array is
touched. -/
theorem C7_counterexample :
    (queue_conv2d 64 .F64 0 1 2 c7Params c7InputLayout c7KernelLayout emptyQB).as_err.map
      (fun r => (r.1, r.2.meta.length, r.2.command_queue.length)) =
      some (.UnsupportedDType, 16, 0) ∧
    emptyQB.meta.length = 0 ∧ (16 : Nat) ≠ 0 := by
  decide

/-- Claim C7 (amended): a `queue_conv2d` call with a dtype outside
{U8, U32, F32} (here on the direct, non-pre-copy path) returns the
UnsupportedDType error and pushes no dispatch onto the command queue, but
only after `get_meta` ran and the 16 conv2d meta words were written: the meta
array is strictly longer at the failure point than at entry. -/
theorem C7_dtype_error (align_words : Nat) (dtype : CrateDType)
    (buffer_dest buffer_input1 buffer_input2 : Nat) (params : ParamsConv2D)
    (il kl : Layout) (qb : QueueBuffer)
    (hdt : get_dtype dtype = .error ())
    (hnc : ¬ conv2d_precopy_cond params il) :
    queue_conv2d align_words dtype buffer_dest buffer_input1 buffer_input2 params il kl qb =
      .err .UnsupportedDType { get_meta align_words qb with
        meta := (get_meta align_words qb).meta ++ conv2d_meta_words params il kl } ∧
    ({ get_meta align_words qb with
        meta := (get_meta align_words qb).meta ++ conv2d_meta_words params il kl } :
      QueueBuffer).command_queue = qb.command_queue ∧
    qb.meta.length <
      ((get_meta align_words qb).meta ++ conv2d_meta_words params il kl).length := by
  refine ⟨?_, rfl, ?_⟩
  · simp only [queue_conv2d, if_neg hnc, queue_conv2d_core, hdt]
  · have h1 : (conv2d_meta_words params il kl).length = 16 := rfl
    simp only [List.length_append, h1, get_meta, List.length_replicate]
    omega

theorem C7_dtype_error_witness :
    (get_dtype .F64 = .error () ∧ ¬ conv2d_precopy_cond c7Params c7InputLayout) ∧
    (queue_conv2d 64 .F64 0 1 2 c7Params c7InputLayout c7KernelLayout emptyQB =
        .err .UnsupportedDType { get_meta 64 emptyQB with
          meta := (get_meta 64 emptyQB).meta ++
            conv2d_meta_words c7Params c7InputLayout c7KernelLayout } ∧
      ({ get_meta 64 emptyQB with
          meta := (get_meta 64 emptyQB).meta ++
            conv2d_meta_words c7Params c7InputLayout c7KernelLayout } :
        QueueBuffer).command_queue = emptyQB.command_queue ∧
      emptyQB.meta.length <
        ((get_meta 64 emptyQB).meta ++
          conv2d_meta_words c7Params c7InputLayout c7KernelLayout).length) :=
  ⟨⟨rfl, by decide⟩,
   C7_dtype_error 64 .F64 0 1 2 c7Params c7InputLayout c7KernelLayout emptyQB rfl (by decide)⟩

/-- Claim C5: `queue_conv2d` allocates a transient contiguous buffer of
`elem_count * 4` bytes and enqueues a strided copy before the conv dispatch
exactly when the innermost input stride is not 1 and `c_out > 32` and
`i_h ≥ 64` and `i_w ≥ 64`; otherwise it enqueues exactly one conv dispatch
that binds the input buffer directly and whose meta words come from the
original layout. -/
theorem C5_conv2d_precopy (align_words : Nat) (dtype : CrateDType) (dt : DType)
    (buffer_dest buffer_input1 buffer_input2 : Nat) (params : ParamsConv2D)
    (il kl : Layout) (qb t : QueueBuffer)
    (hdt : get_dtype dtype = .ok dt)
    (h : queue_conv2d align_words dtype buffer_dest buffer_input1 buffer_input2 params il kl qb =
      .ok t) :
    (conv2d_precopy_cond params il →
      t.allocated = qb.allocated ++ [(qb.next_buffer_id, il.shape.prod * 4)] ∧
      t.command_queue.length = qb.command_queue.length + 2 ∧
      (t.command_queue.drop qb.command_queue.length).map (fun d => d.pipeline.kernel) =
        [.Copy dt .CopyStrided, .Conv2d dt .Conv2d] ∧
      t.command_queue.getLast?.map (fun d => d.bindgroup) =
        some (.BindgroupReference
          (.Bindgroup2 buffer_dest qb.next_buffer_id buffer_input2 false))) ∧
    (¬ conv2d_precopy_cond params il →
      t.allocated = qb.allocated ∧
      t.command_queue = qb.command_queue ++
        [pushed_dispatch ((params.out_w + 15) / 16) ((params.out_h + 15) / 16) params.c_out
          (get_pipeline_const (.Conv2d dt .Conv2d) (conv2d_const_vec params il kl)
            { get_meta align_words qb with
              meta := (get_meta align_words qb).meta ++ conv2d_meta_words params il kl }).1
          (.Bindgroup2 buffer_dest buffer_input1 buffer_input2 false)
          (get_meta align_words qb).current_meta
          (params.out_w * params.out_h * params.c_out * params.b_size * kl.shape.prod)] ∧
      t.meta = (get_meta align_words qb).meta ++ conv2d_meta_words params il kl) := by
  by_cases hc : conv2d_precopy_cond params il
  · refine ⟨fun _ => ?_, fun hn => absurd hc hn⟩
    simp only [queue_conv2d, if_pos hc] at h
    split at h
    · rename_i qb2 heq
      have hcopy := queue_copy_strided_ok align_words dtype dt qb.next_buffer_id buffer_input1
        il 0 (create_buffer_reference (il.shape.prod * 4) qb).2 qb2 hdt heq
      have hcore := queue_conv2d_core_ok align_words dtype dt buffer_dest qb.next_buffer_id
        buffer_input2 params (Layout.contiguous il.shape) kl qb2 t hdt h
      have hq2 : qb2.command_queue = qb.command_queue ++
          [pushed_dispatch
            (min ((il.shape.prod + WORKGROUP_SIZE - 1) / WORKGROUP_SIZE) 65535)
            ((((il.shape.prod + WORKGROUP_SIZE - 1) / WORKGROUP_SIZE) + 65534) / 65535) 1
            { kernel := .Copy dt .CopyStrided, const_id := 0,
              inplaceable := { input1_inplaceable := false, input2_inplaceable := false } }
            (.Bindgroup1 qb.next_buffer_id buffer_input1 false)
            (get_meta align_words (create_buffer_reference (il.shape.prod * 4) qb).2).current_meta
            il.shape.prod] := hcopy.1
      refine ⟨?_, ?_, ?_, ?_⟩
      · rw [hcore.2.2.1, hcopy.2.1]
        rfl
      · rw [hcore.1, hq2]
        simp [List.length_append]
      · rw [hcore.1, hq2, List.append_assoc, List.drop_left]
        simp [pushed_dispatch, get_pipeline_const_kernel]
      · rw [hcore.1, List.getLast?_concat]
        rfl
    · rename_i e s heq
      exact absurd h (by simp)
    · exact absurd h (by simp)
  · refine ⟨fun hcc => absurd hcc hc, fun _ => ?_⟩
    simp only [queue_conv2d, if_neg hc] at h
    have hcore := queue_conv2d_core_ok align_words dtype dt buffer_dest buffer_input1
      buffer_input2 params il kl qb t hdt h
    exact ⟨hcore.2.2.1, hcore.1, hcore.2.1⟩

theorem C5_conv2d_precopy_witness :
    (get_dtype .F32 = .ok .f32 ∧
      queue_conv2d 64 .F32 0 1 2 c7Params c7InputLayout c7KernelLayout emptyQB =
        .ok c5Target) ∧
    ((conv2d_precopy_cond c7Params c7InputLayout →
      c5Target.allocated = emptyQB.allocated ++
        [(emptyQB.next_buffer_id, c7InputLayout.shape.prod * 4)] ∧
      c5Target.command_queue.length = emptyQB.command_queue.length + 2 ∧
      (c5Target.command_queue.drop emptyQB.command_queue.length).map
        (fun d => d.pipeline.kernel) = [.Copy .f32 .CopyStrided, .Conv2d .f32 .Conv2d] ∧
      c5Target.command_queue.getLast?.map (fun d => d.bindgroup) =
        some (.BindgroupReference (.Bindgroup2 0 emptyQB.next_buffer_id 2 false))) ∧
    (¬ conv2d_precopy_cond c7Params c7InputLayout →
      c5Target.allocated = emptyQB.allocated ∧
      c5Target.command_queue = emptyQB.command_queue ++
        [pushed_dispatch ((c7Params.out_w + 15) / 16) ((c7Params.out_h + 15) / 16)
          c7Params.c_out
          (get_pipeline_const (.Conv2d .f32 .Conv2d)
            (conv2d_const_vec c7Params c7InputLayout c7KernelLayout)
            { get_meta 64 emptyQB with
              meta := (get_meta 64 emptyQB).meta ++
                conv2d_meta_words c7Params c7InputLayout c7KernelLayout }).1
          (.Bindgroup2 0 1 2 false)
          (get_meta 64 emptyQB).current_meta
          (c7Params.out_w * c7Params.out_h * c7Params.c_out * c7Params.b_size *
            c7KernelLayout.shape.prod)] ∧
      c5Target.meta = (get_meta 64 emptyQB).meta ++
        conv2d_meta_words c7Params c7InputLayout c7KernelLayout)) :=
  ⟨⟨rfl, by decide⟩,
   C5_conv2d_precopy 64 .F32 .f32 0 1 2 c7Params c7InputLayout c7KernelLayout emptyQB c5Target
     rfl (by decide)⟩

theorem materialize_fields (st : Store) (sid : Nat) (d : MlQueueDispatch)
    (r : MlQueueDispatch × Store × Nat × Bool) (h : materialize st sid d = some r) :
    r.1.workload_size = d.workload_size ∧ r.1.meta = d.meta := by
  unfold materialize at h
  split at h
  · cases h
    exact ⟨rfl, rfl⟩
  · exact absurd h (by simp)

theorem process_dispatch_fields (strong size_of : Nat → Nat) (st : Store) (sid : Nat)
    (d : MlQueueDispatch) (r : MlQueueDispatch × Store × Nat × Bool)
    (h : process_dispatch strong size_of st sid d = some r) :
    r.1.workload_size = d.workload_size ∧ r.1.meta = d.meta := by
  unfold process_dispatch at h
  repeat' split at h
  all_goals
    first
      | (cases h; exact ⟨rfl, rfl⟩)
      | exact materialize_fields _ _ _ _ h

theorem sb_loop_sum (mw mbs cm : Nat) (strong size_of : Nat → Nat) (lim : Nat → Bool) :
    ∀ (q : List MlQueueDispatch) (st : Store) (sid total lm k : Nat)
      (tk rm : List MlQueueDispatch) (st2 : Store) (sid2 lm2 : Nat),
      sb_loop mw mbs cm strong size_of lim q st sid total lm k =
        some (tk, rm, st2, sid2, lm2) →
      total ≤ mw → (1 ≤ k ∨ 2 ≤ tk.length) →
      total + (tk.map (fun d => d.workload_size)).sum ≤ mw := by
  intro q
  induction q with
  | nil =>
    intro st sid total lm k tk rm st2 sid2 lm2 h hle hor
    simp only [sb_loop] at h
    cases h
    simpa using hle
  | cons d rest ih =>
    intro st sid total lm k tk rm st2 sid2 lm2 h hle hor
    rw [sb_loop] at h
    split at h
    · cases h
      simpa using hle
    · rename_i hcond
      split at h
      · exact absurd h (by simp)
      · rename_i d1 st1 sid1 ch hp
        have hw : d1.workload_size = d.workload_size :=
          (process_dispatch_fields strong size_of st sid d (d1, st1, sid1, ch) hp).1
        split at h
        · cases h
          simp only [List.map_cons, List.map_nil, List.sum_cons, List.sum_nil]
          rcases hor with hk | hlen
          · have hnl : ¬ mw < total + d.workload_size := fun hlt => hcond ⟨hlt, hk⟩
            omega
          · simp at hlen
        · rename_i hguard
          have hle2 : total + d.workload_size ≤ mw := by
            rcases Nat.lt_or_ge mw (total + d.workload_size) with hlt | hge
            · exact absurd (Or.inr (Or.inr hlt)) hguard
            · exact hge
          split at h
          · exact absurd h (by simp)
          · rename_i hrec
            cases h
            have htail := ih st1 sid1 (total + d.workload_size) d1.meta (k + 1)
              _ _ _ _ _ hrec hle2 (Or.inl (by omega))
            simp only [List.map_cons, List.sum_cons]
            omega

/-- Claim C1: every batch emitted by the `set_buffers` loop keeps the sum of
`workload_size` over its dispatches at most `MAX_WORKLOAD_SIZE` as soon as the
batch has at least two dispatches (the only over-cap batch is a singleton
whose own workload exceeds the cap), because the loop stops before a dispatch
that would push the running total over the cap whenever at least one dispatch
is already batched; every prefix of length ≥ 2 of the batch obeys the bound. -/
theorem C1_workload_split (max_workload meta_buffer_size current_meta : Nat)
    (strong size_of : Nat → Nat) (limit_at : Nat → Bool)
    (q : List MlQueueDispatch) (st : Store) (sid lm0 : Nat)
    (taken : List MlQueueDispatch)
    (h : (sb_loop max_workload meta_buffer_size current_meta strong size_of limit_at
        q st sid 0 lm0 0).map (fun r => r.1) = some taken)
    (i : Nat) (h2 : 2 ≤ i) (hi : i ≤ taken.length) :
    ((taken.take i).map (fun d => d.workload_size)).sum ≤ max_workload := by
  cases hres : sb_loop max_workload meta_buffer_size current_meta strong size_of limit_at
      q st sid 0 lm0 0 with
  | none =>
    rw [hres] at h
    exact absurd h (by simp)
  | some r =>
    obtain ⟨tk, rm, st2, sid2, lm2⟩ := r
    rw [hres] at h
    simp only [Option.map_some', Option.some.injEq] at h
    subst h
    have hlen : 2 ≤ tk.length := le_trans h2 hi
    have hsum := sb_loop_sum max_workload meta_buffer_size current_meta strong size_of
      limit_at q st sid 0 lm0 0 tk rm st2 sid2 lm2 hres (Nat.zero_le _) (Or.inr hlen)
    have hsplit : ((tk.take i).map (fun d => d.workload_size)).sum ≤
        (tk.map (fun d => d.workload_size)).sum := by
      conv_rhs => rw [← List.take_append_drop i tk]
      rw [List.map_append, List.sum_append]
      exact Nat.le_add_right _ _
    omega

theorem C1_workload_split_witness :
    ((sb_loop 100 10000 0 (fun _ => 2) (fun _ => 1) (fun _ => false)
        [c1Dispatch, c1Dispatch, c1Dispatch, c1Dispatch] (fun _ => some 0) 7 0 0 0).map
      (fun r => r.1) = some [c1Done, c1Done, c1Done] ∧
      (2 : Nat) ≤ 3 ∧ 3 ≤ [c1Done, c1Done, c1Done].length) ∧
    (([c1Done, c1Done, c1Done].take 3).map (fun d => d.workload_size)).sum ≤ 100 :=
  ⟨⟨by decide, by decide, by decide⟩,
   C1_workload_split 100 10000 0 (fun _ => 2) (fun _ => 1) (fun _ => false)
     [c1Dispatch, c1Dispatch, c1Dispatch, c1Dispatch] (fun _ => some 0) 7 0
     [c1Done, c1Done, c1Done] (by decide) 3 (by decide) (by decide)⟩

/-- Claim C3 counterexample: a unary contiguous-from-buffer dispatch whose
input has strong count 1, whose dest fits in the input, and whose dest is
unbacked, but whose `input1_inplaceable` hint is false, is NOT rewritten: the
pipeline stays `UnaryFromBufferContiguous`, the input keeps its storage, and
the dest is bound to fresh storage instead of aliasing the input.  The claim
omits the `input1_inplaceable` condition required by the code. -/
theorem C3_counterexample :
    (c3strong 1 = 1 ∧ c3size 0 ≤ c3size 1 ∧ c3store 0 = none ∧ c3store 1 = some 5) ∧
    (process_dispatch c3strong c3size c3store 7 (c3Dispatch false)).map
      (fun r => r.1.pipeline.kernel) = some (.Unary .f32 .UnaryFromBufferContiguous) ∧
    (Pipelines.Unary .f32 .UnaryFromBufferContiguous) ≠
      (.Unary .f32 .UnaryInplaceContiguous) ∧
    (process_dispatch c3strong c3size c3store 7 (c3Dispatch false)).map
      (fun r => r.2.1 1) = some (some 5) ∧
    (process_dispatch c3strong c3size c3store 7 (c3Dispatch false)).map
      (fun r => r.2.1 0) = some (some 7) ∧
    (some 7 : Option Nat) ≠ some 5 := by
  decide

/-- Claim C3 (amended): when `set_buffers` encounters a unary
contiguous-from-buffer dispatch whose pipeline carries the
`input1_inplaceable` hint, whose first input is the sole live reference
(strong count 1) and backed by storage, whose dest fits in the input, and
whose dest is unbacked, the planner rewrites the pipeline to the
unary-inplace variant with an arity-0 bind group over the input, and after
the step the dest's storage equals the former input storage while the
input's storage is `none`. -/
theorem C3_inplace_rewrite (strong size_of : Nat → Nat) (st : Store) (next_sid : Nat)
    (x y z const_id : Nat) (ip2 pc : Bool) (dt : DType) (vdest v1 : Nat)
    (f : Bool) (m w sid0 : Nat)
    (hstrong : strong v1 = 1) (hsize : size_of vdest ≤ size_of v1)
    (hdest : st vdest = none) (hinput : st v1 = some sid0) :
    process_dispatch strong size_of st next_sid
      { x := x, y := y, z := z,
        pipeline :=
          { kernel := .Unary dt .UnaryFromBufferContiguous, const_id := const_id,
            inplaceable := { input1_inplaceable := true, input2_inplaceable := ip2 } },
        pipeline_cached := pc,
        bindgroup := .BindgroupReference (.Bindgroup1 vdest v1 f), meta := m,
        workload_size := w } =
      some ({ x := x, y := y, z := z,
              pipeline :=
                { kernel := .Unary dt .UnaryInplaceContiguous, const_id := const_id,
                  inplaceable :=
                    { input1_inplaceable := true, input2_inplaceable := ip2 } },
              pipeline_cached := true,
              bindgroup := .CachedBindgroup (.Bindgroup0 v1), meta := m,
              workload_size := w },
        store_update (store_update st vdest (some sid0)) v1 none, next_sid, true) ∧
    store_update (store_update st vdest (some sid0)) v1 none vdest = some sid0 ∧
    store_update (store_update st vdest (some sid0)) v1 none v1 = none := by
  have hne : vdest ≠ v1 := by
    intro he
    rw [he, hinput] at hdest
    exact Option.noConfusion hdest
  refine ⟨?_, ?_, ?_⟩
  · have hb : bind_buffers st next_sid (BindGroupReferenceBase.Bindgroup0 v1).buffers =
        (st, next_sid) := by
      simp [bind_buffers, BindGroupReferenceBase.buffers, hinput]
    simp only [process_dispatch]
    rw [if_pos ⟨True.intro, hstrong, hsize, hdest⟩]
    simp only [hb, hinput]
  · simp [store_update, hne]
  · simp [store_update]

theorem C3_inplace_rewrite_witness :
    (c3strong 1 = 1 ∧ c3size 0 ≤ c3size 1 ∧ c3store 0 = none ∧ c3store 1 = some 5) ∧
    (process_dispatch c3strong c3size c3store 7 (c3Dispatch true) =
      some ({ x := 1, y := 1, z := 1,
              pipeline :=
                { kernel := .Unary .f32 .UnaryInplaceContiguous, const_id := 0,
                  inplaceable :=
                    { input1_inplaceable := true, input2_inplaceable := false } },
              pipeline_cached := true,
              bindgroup := .CachedBindgroup (.Bindgroup0 1), meta := 0,
              workload_size := 9 },
        store_update (store_update c3store 0 (some 5)) 1 none, 7, true) ∧
      store_update (store_update c3store 0 (some 5)) 1 none 0 = some 5 ∧
      store_update (store_update c3store 0 (some 5)) 1 none 1 = none) :=
  ⟨⟨rfl, by decide, rfl, rfl⟩,
   C3_inplace_rewrite c3strong c3size c3store 7 1 1 1 0 false false .f32 0 1 false 0 9 5
     rfl (by decide) rfl rfl⟩
